import Mathlib

/-!
# Verification of `smallnum`: bound-driven integer width selection

A shallow embedding of the `smallnum` crate (files `src/lib.rs`,
`src/unsigned.rs`, `src/signed.rs`).  The crate maps a compile-time integer
bound to the narrowest primitive integer type that can represent it, provides
checked conversions between each narrow type and the host-native width
(`usize` / `isize`), and mirrors the type choice with runtime label enums.

Machine integers are modelled as `Nat` (unsigned values) and `Int` (signed
values); Rust `as` casts are made explicit (`% 2 ^ w` truncation for unsigned,
two's-complement wrapping for signed).  A Rust `assert!` failure (panic) is
modelled by `Option`: `none` is the panic, `some v` the returned value.
Trait resolution of the `ShrinkUnsigned` / `ShrinkSigned` helper traits over
five const-generic booleans is modelled as a partial match on the boolean
vector: `none` means "no impl applies", which in Rust is a compile error.
-/

-- Integer range constants (`core::u8::MAX`, `core::i8::MIN`, ...) -----------

def u8MAX : Nat := 255

def u16MAX : Nat := 65535

def u32MAX : Nat := 4294967295

def u64MAX : Nat := 18446744073709551615

def u128MAX : Nat := 340282366920938463463374607431768211455

def i8MIN : Int := -128

def i8MAX : Int := 127

def i16MIN : Int := -32768

def i16MAX : Int := 32767

def i32MIN : Int := -2147483648

def i32MAX : Int := 2147483647

def i64MIN : Int := -9223372036854775808

def i64MAX : Int := 9223372036854775807

def i128MIN : Int := -170141183460469231731687303715884105728

def i128MAX : Int := 170141183460469231731687303715884105727

-- Host pointer widths --------------------------------------------------------

/-- The host pointer widths enumerated by the crate's `cfg` gates
(`target_pointer_width` is one of "16", "32", "64", "128"). -/
inductive PtrWidth
  | w16
  | w32
  | w64
  | w128
deriving DecidableEq, Repr

def ptrBits : PtrWidth → Nat
  | .w16 => 16
  | .w32 => 32
  | .w64 => 64
  | .w128 => 128

/-- Largest `usize` value on a host of pointer width `w`. -/
def usizeMaxOn (w : PtrWidth) : Nat := 2 ^ ptrBits w - 1

/-- Smallest `isize` value on a host of pointer width `w`. -/
def isizeMinOn (w : PtrWidth) : Int := -(2 ^ (ptrBits w - 1))

/-- Largest `isize` value on a host of pointer width `w`. -/
def isizeMaxOn (w : PtrWidth) : Int := 2 ^ (ptrBits w - 1) - 1

-- Runtime labels (`unsigned.rs` lines 4-43, `signed.rs` lines 4-50) ----------

/-- `SmallUnsignedLabel` from `unsigned.rs`: labels for unsigned primitives. -/
inductive SmallUnsignedLabel
  | USIZE
  | U8
  | U16
  | U32
  | U64
  | U128
deriving DecidableEq, Repr

/-- `SmallUnsignedLabel::new` (`unsigned.rs` lines 29-42).  The source
compares `(num as u128) <= (core::uN::MAX as u128)`; both casts are lossless
widenings (`num` is a `usize`, at most 128 bits wide), so the comparisons are
the plain numeric comparisons below. -/
def SmallUnsignedLabel.new (num : Nat) : SmallUnsignedLabel :=
  if num ≤ u8MAX then SmallUnsignedLabel.U8
  else if num ≤ u16MAX then SmallUnsignedLabel.U16
  else if num ≤ u32MAX then SmallUnsignedLabel.U32
  else if num ≤ u64MAX then SmallUnsignedLabel.U64
  else SmallUnsignedLabel.U128

/-- `SmallSignedLabel` from `signed.rs`: labels for signed primitives. -/
inductive SmallSignedLabel
  | ISIZE
  | I8
  | I16
  | I32
  | I64
  | I128
deriving DecidableEq, Repr

/-- `SmallSignedLabel::new` (`signed.rs` lines 30-49).  The source compares
`(core::iN::MIN as i128) <= (num as i128)` and `(num as i128) <= (iN::MAX as
i128)`; all casts are lossless sign-extending widenings. -/
def SmallSignedLabel.new (num : Int) : SmallSignedLabel :=
  if i8MIN ≤ num ∧ num ≤ i8MAX then SmallSignedLabel.I8
  else if i16MIN ≤ num ∧ num ≤ i16MAX then SmallSignedLabel.I16
  else if i32MIN ≤ num ∧ num ≤ i32MAX then SmallSignedLabel.I32
  else if i64MIN ≤ num ∧ num ≤ i64MAX then SmallSignedLabel.I64
  else SmallSignedLabel.I128

-- Ladder rung tags ------------------------------------------------------------

/-- Tag for the unsigned type ladder `{u8, u16, u32, u64, u128}`: the possible
values of the associated type `ShrinkUnsigned::UnsignedType`. -/
inductive UnsignedType
  | u8
  | u16
  | u32
  | u64
  | u128
deriving DecidableEq, Repr

/-- Tag for the signed type ladder `{i8, i16, i32, i64, i128}`: the possible
values of the associated type `ShrinkSigned::SmallSigned`. -/
inductive SignedType
  | i8
  | i16
  | i32
  | i64
  | i128
deriving DecidableEq, Repr

def uBits : UnsignedType → Nat
  | .u8 => 8
  | .u16 => 16
  | .u32 => 32
  | .u64 => 64
  | .u128 => 128

def uMaxVal : UnsignedType → Nat
  | .u8 => u8MAX
  | .u16 => u16MAX
  | .u32 => u32MAX
  | .u64 => u64MAX
  | .u128 => u128MAX

/-- `core::mem::size_of` for each unsigned rung, in bytes. -/
def uSizeOf : UnsignedType → Nat
  | .u8 => 1
  | .u16 => 2
  | .u32 => 4
  | .u64 => 8
  | .u128 => 16

def sBits : SignedType → Nat
  | .i8 => 8
  | .i16 => 16
  | .i32 => 32
  | .i64 => 64
  | .i128 => 128

def iMinVal : SignedType → Int
  | .i8 => i8MIN
  | .i16 => i16MIN
  | .i32 => i32MIN
  | .i64 => i64MIN
  | .i128 => i128MIN

def iMaxVal : SignedType → Int
  | .i8 => i8MAX
  | .i16 => i16MAX
  | .i32 => i32MAX
  | .i64 => i64MAX
  | .i128 => i128MAX

/-- `core::mem::size_of` for each signed rung, in bytes. -/
def sSizeOf : SignedType → Nat
  | .i8 => 1
  | .i16 => 2
  | .i32 => 4
  | .i64 => 8
  | .i128 => 16

-- Fits predicates of the selection macros (`unsigned.rs` / `signed.rs`) ------

/-- First const-generic argument of `small_unsigned!` (`unsigned.rs` line 160):
`($max as u128) <= (core::u8::MAX as u128)`. -/
def fits_u8 (max : Nat) : Bool := decide (max ≤ u8MAX)

/-- `unsigned.rs` line 161: `($max as u128) <= (core::u16::MAX as u128)`. -/
def fits_u16 (max : Nat) : Bool := decide (max ≤ u16MAX)

/-- `unsigned.rs` line 162: `($max as u128) <= (core::u32::MAX as u128)`. -/
def fits_u32 (max : Nat) : Bool := decide (max ≤ u32MAX)

/-- `unsigned.rs` line 163: `($max as u128) <= (core::u64::MAX as u128)`. -/
def fits_u64 (max : Nat) : Bool := decide (max ≤ u64MAX)

/-- `unsigned.rs` line 164: `($max as u128) <= (core::u128::MAX as u128)`. -/
def fits_u128 (max : Nat) : Bool := decide (max ≤ u128MAX)

/-- `signed.rs` lines 179-181: the `FITS_I8` predicate of `small_signed!`. -/
def fits_i8 (val : Int) : Bool := decide (i8MIN ≤ val ∧ val ≤ i8MAX)

/-- `signed.rs` lines 183-185: the `FITS_I16` predicate of `small_signed!`. -/
def fits_i16 (val : Int) : Bool := decide (i16MIN ≤ val ∧ val ≤ i16MAX)

/-- `signed.rs` lines 187-189: the `FITS_I32` predicate of `small_signed!`. -/
def fits_i32 (val : Int) : Bool := decide (i32MIN ≤ val ∧ val ≤ i32MAX)

/-- `signed.rs` lines 191-193: the `FITS_I64` predicate of `small_signed!`. -/
def fits_i64 (val : Int) : Bool := decide (i64MIN ≤ val ∧ val ≤ i64MAX)

/-- `signed.rs` lines 195-197: the `FITS_I128` predicate of `small_signed!`. -/
def fits_i128 (val : Int) : Bool := decide (i128MIN ≤ val ∧ val ≤ i128MAX)

-- Trait resolution (`ShrinkUnsigned` / `ShrinkSigned` impls) -----------------

/-- The five `impl ShrinkUnsigned<..> for ()` blocks (`unsigned.rs` lines
182-200, identical in `lib.rs` lines 239-257), read as a partial map from the
const-generic boolean vector to the associated `UnsignedType`.  A vector
matching no impl is a Rust compile error, modelled as `none`. -/
def shrinkUnsigned : Bool → Bool → Bool → Bool → Bool → Option UnsignedType
  | true, true, true, true, true => some UnsignedType.u8
  | false, true, true, true, true => some UnsignedType.u16
  | false, false, true, true, true => some UnsignedType.u32
  | false, false, false, true, true => some UnsignedType.u64
  | false, false, false, false, true => some UnsignedType.u128
  | _, _, _, _, _ => none

/-- The five `impl ShrinkSigned<..> for ()` blocks (`signed.rs` lines 216-234,
identical in `lib.rs` lines 322-340). -/
def shrinkSigned : Bool → Bool → Bool → Bool → Bool → Option SignedType
  | true, true, true, true, true => some SignedType.i8
  | false, true, true, true, true => some SignedType.i16
  | false, false, true, true, true => some SignedType.i32
  | false, false, false, true, true => some SignedType.i64
  | false, false, false, false, true => some SignedType.i128
  | _, _, _, _, _ => none

/-- The `small_unsigned!` macro of `unsigned.rs` (lines 156-167): evaluate the
five fits predicates on the bound and resolve through `ShrinkUnsigned`. -/
def small_unsigned (max : Nat) : Option UnsignedType :=
  shrinkUnsigned (fits_u8 max) (fits_u16 max) (fits_u32 max) (fits_u64 max)
    (fits_u128 max)

/-- The `small_signed!` macro of `signed.rs` (lines 174-200): evaluate the
five fits predicates on the bound and resolve through `ShrinkSigned`. -/
def small_signed (val : Int) : Option SignedType :=
  shrinkSigned (fits_i8 val) (fits_i16 val) (fits_i32 val) (fits_i64 val)
    (fits_i128 val)

-- Fits predicates of the older `lib.rs` selection macros ----------------------

/-- `lib.rs` line 181, `small_unsigned!` first predicate:
`$max <= (core::u8::MAX as usize)`. -/
def lib_fits_u8 (max : Nat) : Bool := decide (max ≤ u8MAX)

/-- `lib.rs` lines 182-193: the comparison `$max <= (core::u16::MAX as usize)`
is gated by `cfg!(any(target_pointer_width = "16" | "32" | "64" | "128"))`,
which holds for every `PtrWidth`; the `else { true }` arm is dead here. -/
def lib_fits_u16 (w : PtrWidth) (max : Nat) : Bool :=
  match w with
  | _ => decide (max ≤ u16MAX)

/-- `lib.rs` lines 194-204: `$max <= (core::u32::MAX as usize)` when
`cfg!(any(target_pointer_width = "32" | "64" | "128"))`, else `true`. -/
def lib_fits_u32 (w : PtrWidth) (max : Nat) : Bool :=
  match w with
  | .w16 => true
  | _ => decide (max ≤ u32MAX)

/-- `lib.rs` lines 205-214: `$max <= (core::u64::MAX as usize)` when
`cfg!(any(target_pointer_width = "64" | "128"))`, else `true`. -/
def lib_fits_u64 (w : PtrWidth) (max : Nat) : Bool :=
  match w with
  | .w16 => true
  | .w32 => true
  | _ => decide (max ≤ u64MAX)

/-- `lib.rs` lines 215-221: `$max <= (core::u128::MAX as usize)` when
`cfg!(target_pointer_width = "128")`, else `true`. -/
def lib_fits_u128 (w : PtrWidth) (max : Nat) : Bool :=
  match w with
  | .w128 => decide (max ≤ u128MAX)
  | _ => true

/-- `lib.rs` `small_unsigned!` (lines 177-224). -/
def lib_small_unsigned (w : PtrWidth) (max : Nat) : Option UnsignedType :=
  shrinkUnsigned (lib_fits_u8 max) (lib_fits_u16 w max) (lib_fits_u32 w max)
    (lib_fits_u64 w max) (lib_fits_u128 w max)

/-- `lib.rs` line 264, `small_signed!` first predicate:
`(core::i8::MIN as isize <= $val) && ($val <= (core::i8::MAX as isize))`. -/
def lib_fits_i8 (val : Int) : Bool := decide (i8MIN ≤ val ∧ val ≤ i8MAX)

/-- `lib.rs` lines 265-276: the `i16` range check, gated by a `cfg!` that
holds for every `PtrWidth`. -/
def lib_fits_i16 (w : PtrWidth) (val : Int) : Bool :=
  match w with
  | _ => decide (i16MIN ≤ val ∧ val ≤ i16MAX)

/-- `lib.rs` lines 277-287: the `i32` range check when
`cfg!(any(target_pointer_width = "32" | "64" | "128"))`, else `true`. -/
def lib_fits_i32 (w : PtrWidth) (val : Int) : Bool :=
  match w with
  | .w16 => true
  | _ => decide (i32MIN ≤ val ∧ val ≤ i32MAX)

/-- `lib.rs` lines 288-297: the `i64` range check when
`cfg!(any(target_pointer_width = "64" | "128"))`, else `true`. -/
def lib_fits_i64 (w : PtrWidth) (val : Int) : Bool :=
  match w with
  | .w16 => true
  | .w32 => true
  | _ => decide (i64MIN ≤ val ∧ val ≤ i64MAX)

/-- `lib.rs` lines 298-304: the `i128` range check when
`cfg!(target_pointer_width = "128")`, else `true`. -/
def lib_fits_i128 (w : PtrWidth) (val : Int) : Bool :=
  match w with
  | .w128 => decide (i128MIN ≤ val ∧ val ≤ i128MAX)
  | _ => true

/-- `lib.rs` `small_signed!` (lines 261-307). -/
def lib_small_signed (w : PtrWidth) (val : Int) : Option SignedType :=
  shrinkSigned (lib_fits_i8 val) (lib_fits_i16 w val) (lib_fits_i32 w val)
    (lib_fits_i64 w val) (lib_fits_i128 w val)

-- Rust cast semantics ---------------------------------------------------------

/-- A Rust `as` cast of an integer value to a signed type of width `bits`:
two's-complement wrapping into `[-2 ^ (bits - 1), 2 ^ (bits - 1) - 1]`. -/
def wrapS (bits : Nat) (n : Int) : Int :=
  (n + 2 ^ (bits - 1)) % 2 ^ bits - 2 ^ (bits - 1)

/-- The body `*self as usize` shared by every `impl SmallUnsigned` `usize`
method (`unsigned.rs` lines 73-74, 90-91, 106-107, 118-119, 130-131, and the
same in `lib.rs`): an unsigned cast to the host width truncates modulo
`2 ^ ptrBits w`.  Each impl is `cfg`-gated so that its rung is never wider
than the host width, making the cast lossless in the source; the theorems
state (rather than assume) that losslessness. -/
def usize_cast (w : PtrWidth) (v : Nat) : Nat := v % 2 ^ ptrBits w

/-- The body `*self as isize` shared by every `impl SmallSigned` `isize`
method (`signed.rs` lines 85-86, 102-103, 118-119, 130-131, 142-143, and the
same in `lib.rs`): a signed cast to the host width wraps two's-complement. -/
def isize_cast (w : PtrWidth) (v : Int) : Int := wrapS (ptrBits w) v

-- Checked downcasts (`checked_from`) ------------------------------------------

/-- `usize::checked_from` (`unsigned.rs` lines 67-69): returns `num` with no
range check and no failure path. -/
def usize.checked_from (num : Nat) : Nat := num

/-- `isize::checked_from` (`signed.rs` lines 79-81): returns `num` with no
range check and no failure path. -/
def isize.checked_from (num : Int) : Int := num

/-- `u8::checked_from` (`unsigned.rs` lines 77-80):
`assert!(num <= u8::MAX as usize); num as u8`.  The failed assert (panic) is
`none`; the cast `num as u8` truncates modulo `2 ^ 8`. -/
def u8.checked_from (num : Nat) : Option Nat :=
  if num ≤ u8MAX then some (num % 2 ^ 8) else none

/-- `u16::checked_from` (`unsigned.rs` lines 94-97). -/
def u16.checked_from (num : Nat) : Option Nat :=
  if num ≤ u16MAX then some (num % 2 ^ 16) else none

/-- `u32::checked_from` (`unsigned.rs` lines 110-113). -/
def u32.checked_from (num : Nat) : Option Nat :=
  if num ≤ u32MAX then some (num % 2 ^ 32) else none

/-- `u64::checked_from` (`unsigned.rs` lines 122-125). -/
def u64.checked_from (num : Nat) : Option Nat :=
  if num ≤ u64MAX then some (num % 2 ^ 64) else none

/-- `u128::checked_from` (`unsigned.rs` lines 134-137), compiled only when
`target_pointer_width = "128"`, where `u128::MAX as usize` is `u128MAX` and
`num as u128` is a lossless widening (written uniformly as `% 2 ^ 128`). -/
def u128.checked_from (num : Nat) : Option Nat :=
  if num ≤ u128MAX then some (num % 2 ^ 128) else none

/-- `i8::checked_from` (`signed.rs` lines 89-92):
`assert!((i8::MIN as isize <= num) && (num <= i8::MAX as isize)); num as i8`. -/
def i8.checked_from (num : Int) : Option Int :=
  if i8MIN ≤ num ∧ num ≤ i8MAX then some (wrapS 8 num) else none

/-- `i16::checked_from` (`signed.rs` lines 106-109). -/
def i16.checked_from (num : Int) : Option Int :=
  if i16MIN ≤ num ∧ num ≤ i16MAX then some (wrapS 16 num) else none

/-- `i32::checked_from` (`signed.rs` lines 122-125). -/
def i32.checked_from (num : Int) : Option Int :=
  if i32MIN ≤ num ∧ num ≤ i32MAX then some (wrapS 32 num) else none

/-- `i64::checked_from` (`signed.rs` lines 134-137). -/
def i64.checked_from (num : Int) : Option Int :=
  if i64MIN ≤ num ∧ num ≤ i64MAX then some (wrapS 64 num) else none

/-- `i128::checked_from` (`signed.rs` lines 146-149), compiled only when
`target_pointer_width = "128"`.  The guard is the source assert.  CAUTION: the
source's result expression is `num as i28`; `i28` names no Rust type, so this
impl cannot compile when its `cfg` gate is active.  The result below is the
evidently intended `num as i128` (a lossless sign-extending widening from
`isize`, written as the 128-bit wrap), used only to keep the model total; the
slip itself is recorded against the round-trip claim. -/
def i128.checked_from (num : Int) : Option Int :=
  if i128MIN ≤ num ∧ num ≤ i128MAX then some (wrapS 128 num) else none

/-- Dispatch `checked_from` over the unsigned rung tag. -/
def uChecked_from (W : UnsignedType) (num : Nat) : Option Nat :=
  match W with
  | .u8 => u8.checked_from num
  | .u16 => u16.checked_from num
  | .u32 => u32.checked_from num
  | .u64 => u64.checked_from num
  | .u128 => u128.checked_from num

/-- Dispatch `checked_from` over the signed rung tag. -/
def iChecked_from (S : SignedType) (num : Int) : Option Int :=
  match S with
  | .i8 => i8.checked_from num
  | .i16 => i16.checked_from num
  | .i32 => i32.checked_from num
  | .i64 => i64.checked_from num
  | .i128 => i128.checked_from num

-- Width-class correspondence (label versus selected type) --------------------

/-- The label naming a given unsigned rung: the width-class correspondence
between `ShrinkUnsigned` results and `SmallUnsignedLabel` variants. -/
def labelOfUnsigned : UnsignedType → SmallUnsignedLabel
  | .u8 => SmallUnsignedLabel.U8
  | .u16 => SmallUnsignedLabel.U16
  | .u32 => SmallUnsignedLabel.U32
  | .u64 => SmallUnsignedLabel.U64
  | .u128 => SmallUnsignedLabel.U128

-- Helper lemmas: which rung the selection macros resolve to -------------------

lemma small_unsigned_u8 {b : Nat} (h1 : b ≤ u8MAX) :
    small_unsigned b = some UnsignedType.u8 := by
  unfold small_unsigned fits_u8 fits_u16 fits_u32 fits_u64 fits_u128
  rw [decide_eq_true h1, decide_eq_true (le_trans h1 (by decide)),
    decide_eq_true (le_trans h1 (by decide)),
    decide_eq_true (le_trans h1 (by decide)),
    decide_eq_true (le_trans h1 (by decide))]
  rfl

lemma small_unsigned_u16 {b : Nat} (h0 : ¬b ≤ u8MAX) (h1 : b ≤ u16MAX) :
    small_unsigned b = some UnsignedType.u16 := by
  unfold small_unsigned fits_u8 fits_u16 fits_u32 fits_u64 fits_u128
  rw [decide_eq_false h0, decide_eq_true h1,
    decide_eq_true (le_trans h1 (by decide)),
    decide_eq_true (le_trans h1 (by decide)),
    decide_eq_true (le_trans h1 (by decide))]
  rfl

lemma small_unsigned_u32 {b : Nat} (h0 : ¬b ≤ u16MAX) (h1 : b ≤ u32MAX) :
    small_unsigned b = some UnsignedType.u32 := by
  unfold small_unsigned fits_u8 fits_u16 fits_u32 fits_u64 fits_u128
  rw [decide_eq_false fun hc => h0 (le_trans hc (by decide)),
    decide_eq_false h0, decide_eq_true h1,
    decide_eq_true (le_trans h1 (by decide)),
    decide_eq_true (le_trans h1 (by decide))]
  rfl

lemma small_unsigned_u64 {b : Nat} (h0 : ¬b ≤ u32MAX) (h1 : b ≤ u64MAX) :
    small_unsigned b = some UnsignedType.u64 := by
  unfold small_unsigned fits_u8 fits_u16 fits_u32 fits_u64 fits_u128
  rw [decide_eq_false fun hc => h0 (le_trans hc (by decide)),
    decide_eq_false fun hc => h0 (le_trans hc (by decide)),
    decide_eq_false h0, decide_eq_true h1,
    decide_eq_true (le_trans h1 (by decide))]
  rfl

lemma small_unsigned_u128 {b : Nat} (h0 : ¬b ≤ u64MAX) (h1 : b ≤ u128MAX) :
    small_unsigned b = some UnsignedType.u128 := by
  unfold small_unsigned fits_u8 fits_u16 fits_u32 fits_u64 fits_u128
  rw [decide_eq_false fun hc => h0 (le_trans hc (by decide)),
    decide_eq_false fun hc => h0 (le_trans hc (by decide)),
    decide_eq_false fun hc => h0 (le_trans hc (by decide)),
    decide_eq_false h0, decide_eq_true h1]
  rfl

lemma small_signed_i8 {v : Int} (h1 : i8MIN ≤ v) (h2 : v ≤ i8MAX) :
    small_signed v = some SignedType.i8 := by
  unfold small_signed fits_i8 fits_i16 fits_i32 fits_i64 fits_i128
  rw [decide_eq_true ⟨h1, h2⟩,
    decide_eq_true ⟨le_trans (by decide) h1, le_trans h2 (by decide)⟩,
    decide_eq_true ⟨le_trans (by decide) h1, le_trans h2 (by decide)⟩,
    decide_eq_true ⟨le_trans (by decide) h1, le_trans h2 (by decide)⟩,
    decide_eq_true ⟨le_trans (by decide) h1, le_trans h2 (by decide)⟩]
  rfl

lemma small_signed_i16 {v : Int} (h0 : ¬(i8MIN ≤ v ∧ v ≤ i8MAX))
    (h1 : i16MIN ≤ v) (h2 : v ≤ i16MAX) :
    small_signed v = some SignedType.i16 := by
  unfold small_signed fits_i8 fits_i16 fits_i32 fits_i64 fits_i128
  rw [decide_eq_false h0, decide_eq_true ⟨h1, h2⟩,
    decide_eq_true ⟨le_trans (by decide) h1, le_trans h2 (by decide)⟩,
    decide_eq_true ⟨le_trans (by decide) h1, le_trans h2 (by decide)⟩,
    decide_eq_true ⟨le_trans (by decide) h1, le_trans h2 (by decide)⟩]
  rfl

lemma small_signed_i32 {v : Int} (h0 : ¬(i16MIN ≤ v ∧ v ≤ i16MAX))
    (h1 : i32MIN ≤ v) (h2 : v ≤ i32MAX) :
    small_signed v = some SignedType.i32 := by
  unfold small_signed fits_i8 fits_i16 fits_i32 fits_i64 fits_i128
  rw [decide_eq_false
      fun hc => h0 ⟨le_trans (by decide) hc.1, le_trans hc.2 (by decide)⟩,
    decide_eq_false h0, decide_eq_true ⟨h1, h2⟩,
    decide_eq_true ⟨le_trans (by decide) h1, le_trans h2 (by decide)⟩,
    decide_eq_true ⟨le_trans (by decide) h1, le_trans h2 (by decide)⟩]
  rfl

lemma small_signed_i64 {v : Int} (h0 : ¬(i32MIN ≤ v ∧ v ≤ i32MAX))
    (h1 : i64MIN ≤ v) (h2 : v ≤ i64MAX) :
    small_signed v = some SignedType.i64 := by
  unfold small_signed fits_i8 fits_i16 fits_i32 fits_i64 fits_i128
  rw [decide_eq_false
      fun hc => h0 ⟨le_trans (by decide) hc.1, le_trans hc.2 (by decide)⟩,
    decide_eq_false
      fun hc => h0 ⟨le_trans (by decide) hc.1, le_trans hc.2 (by decide)⟩,
    decide_eq_false h0, decide_eq_true ⟨h1, h2⟩,
    decide_eq_true ⟨le_trans (by decide) h1, le_trans h2 (by decide)⟩]
  rfl

lemma small_signed_i128 {v : Int} (h0 : ¬(i64MIN ≤ v ∧ v ≤ i64MAX))
    (h1 : i128MIN ≤ v) (h2 : v ≤ i128MAX) :
    small_signed v = some SignedType.i128 := by
  unfold small_signed fits_i8 fits_i16 fits_i32 fits_i64 fits_i128
  rw [decide_eq_false
      fun hc => h0 ⟨le_trans (by decide) hc.1, le_trans hc.2 (by decide)⟩,
    decide_eq_false
      fun hc => h0 ⟨le_trans (by decide) hc.1, le_trans hc.2 (by decide)⟩,
    decide_eq_false
      fun hc => h0 ⟨le_trans (by decide) hc.1, le_trans hc.2 (by decide)⟩,
    decide_eq_false h0, decide_eq_true ⟨h1, h2⟩]
  rfl

-- Helper lemmas: range arithmetic ---------------------------------------------

lemma outside_of_not_range {lo hi b : Int} (h : ¬(lo ≤ b ∧ b ≤ hi)) :
    b < lo ∨ hi < b := by
  rcases not_and_or.mp h with h | h
  · exact Or.inl (not_le.mp h)
  · exact Or.inr (not_le.mp h)

lemma outside_mono {lo1 hi1 lo2 hi2 b : Int} (hlo : lo1 ≤ lo2) (hhi : hi2 ≤ hi1)
    (h : b < lo1 ∨ hi1 < b) : b < lo2 ∨ hi2 < b := by
  rcases h with h | h
  · exact Or.inl (lt_of_lt_of_le h hlo)
  · exact Or.inr (lt_of_le_of_lt hhi h)

lemma wrapS_eq_self {bits : Nat} {n : Int} (hb : 1 ≤ bits)
    (hlo : -(2 ^ (bits - 1)) ≤ n) (hhi : n < 2 ^ (bits - 1)) : wrapS bits n = n := by
  unfold wrapS
  have hsplit : (2 : Int) ^ bits = 2 ^ (bits - 1) * 2 := by
    conv_lhs => rw [show bits = bits - 1 + 1 by omega]
    rw [pow_succ]
  have hpow : (0 : Int) < 2 ^ (bits - 1) := by positivity
  rw [Int.emod_eq_of_lt (by omega) (by omega)]
  omega


deriving instance Fintype for UnsignedType

deriving instance Fintype for SignedType

/-- A monotone five-rung fits vector: each rung that fits implies that every
wider rung fits too. -/
abbrev monoChain (a b c d e : Bool) : Prop :=
  (a = true → b = true) ∧ (b = true → c = true) ∧ (c = true → d = true) ∧
    (d = true → e = true)

-- Claim theorems --------------------------------------------------------------

/-- C1: for every unsigned bound expressible as `usize` (at most `u128MAX` on
any supported host), `small_unsigned!` resolves to the narrowest ladder rung
whose maximum is at least the bound, every narrower rung's maximum is below
the bound, and in particular `small_unsigned!(200)` is `u8` (1 byte) and
`small_unsigned!(500)` is `u16` (2 bytes). -/
theorem C1_small_unsigned_narrowest (b : Nat) (hb : b ≤ u128MAX) :
    (∃ W : UnsignedType, small_unsigned b = some W ∧ b ≤ uMaxVal W ∧
      ∀ V : UnsignedType, uBits V < uBits W → uMaxVal V < b) ∧
    small_unsigned 200 = some UnsignedType.u8 ∧ uSizeOf UnsignedType.u8 = 1 ∧
    small_unsigned 500 = some UnsignedType.u16 ∧ uSizeOf UnsignedType.u16 = 2 := by
  refine ⟨?_, by decide, rfl, by decide, rfl⟩
  by_cases h1 : b ≤ u8MAX
  · refine ⟨UnsignedType.u8, small_unsigned_u8 h1, h1, fun V hV => ?_⟩
    cases V <;> simp [uBits] at hV
  by_cases h2 : b ≤ u16MAX
  · refine ⟨UnsignedType.u16, small_unsigned_u16 h1 h2, h2, fun V hV => ?_⟩
    cases V
    · exact Nat.not_le.mp h1
    all_goals simp [uBits] at hV
  by_cases h3 : b ≤ u32MAX
  · refine ⟨UnsignedType.u32, small_unsigned_u32 h2 h3, h3, fun V hV => ?_⟩
    cases V
    · exact Nat.lt_of_le_of_lt (by decide) (Nat.not_le.mp h2)
    · exact Nat.not_le.mp h2
    all_goals simp [uBits] at hV
  by_cases h4 : b ≤ u64MAX
  · refine ⟨UnsignedType.u64, small_unsigned_u64 h3 h4, h4, fun V hV => ?_⟩
    cases V
    · exact Nat.lt_of_le_of_lt (by decide) (Nat.not_le.mp h3)
    · exact Nat.lt_of_le_of_lt (by decide) (Nat.not_le.mp h3)
    · exact Nat.not_le.mp h3
    all_goals simp [uBits] at hV
  · refine ⟨UnsignedType.u128, small_unsigned_u128 h4 hb, hb, fun V hV => ?_⟩
    cases V
    · exact Nat.lt_of_le_of_lt (by decide) (Nat.not_le.mp h4)
    · exact Nat.lt_of_le_of_lt (by decide) (Nat.not_le.mp h4)
    · exact Nat.lt_of_le_of_lt (by decide) (Nat.not_le.mp h4)
    · exact Nat.not_le.mp h4
    · simp [uBits] at hV

theorem C1_small_unsigned_narrowest_witness :
    (∃ W : UnsignedType, small_unsigned 300 = some W ∧ 300 ≤ uMaxVal W ∧
      ∀ V : UnsignedType, uBits V < uBits W → uMaxVal V < 300) ∧
    small_unsigned 200 = some UnsignedType.u8 ∧ uSizeOf UnsignedType.u8 = 1 ∧
    small_unsigned 500 = some UnsignedType.u16 ∧ uSizeOf UnsignedType.u16 = 2 :=
  C1_small_unsigned_narrowest 300 (by decide)

/-- C2: for every signed bound expressible as `isize` (within the `i128`
range, which contains every host `isize` range), `small_signed!` resolves to
the narrowest ladder rung whose range contains the bound, and the bound lies
outside the range of every narrower rung. -/
theorem C2_small_signed_narrowest (b : Int)
    (hlo : i128MIN ≤ b) (hhi : b ≤ i128MAX) :
    ∃ W : SignedType, small_signed b = some W ∧ iMinVal W ≤ b ∧ b ≤ iMaxVal W ∧
      ∀ V : SignedType, sBits V < sBits W → b < iMinVal V ∨ iMaxVal V < b := by
  by_cases h1 : i8MIN ≤ b ∧ b ≤ i8MAX
  · refine ⟨SignedType.i8, small_signed_i8 h1.1 h1.2, h1.1, h1.2, fun V hV => ?_⟩
    cases V <;> simp [sBits] at hV
  by_cases h2 : i16MIN ≤ b ∧ b ≤ i16MAX
  · refine ⟨SignedType.i16, small_signed_i16 h1 h2.1 h2.2, h2.1, h2.2,
      fun V hV => ?_⟩
    cases V
    · exact outside_of_not_range h1
    all_goals simp [sBits] at hV
  by_cases h3 : i32MIN ≤ b ∧ b ≤ i32MAX
  · refine ⟨SignedType.i32, small_signed_i32 h2 h3.1 h3.2, h3.1, h3.2,
      fun V hV => ?_⟩
    cases V
    · exact outside_mono (by decide) (by decide) (outside_of_not_range h2)
    · exact outside_of_not_range h2
    all_goals simp [sBits] at hV
  by_cases h4 : i64MIN ≤ b ∧ b ≤ i64MAX
  · refine ⟨SignedType.i64, small_signed_i64 h3 h4.1 h4.2, h4.1, h4.2,
      fun V hV => ?_⟩
    cases V
    · exact outside_mono (by decide) (by decide) (outside_of_not_range h3)
    · exact outside_mono (by decide) (by decide) (outside_of_not_range h3)
    · exact outside_of_not_range h3
    all_goals simp [sBits] at hV
  · refine ⟨SignedType.i128, small_signed_i128 h4 hlo hhi, hlo, hhi,
      fun V hV => ?_⟩
    cases V
    · exact outside_mono (by decide) (by decide) (outside_of_not_range h4)
    · exact outside_mono (by decide) (by decide) (outside_of_not_range h4)
    · exact outside_mono (by decide) (by decide) (outside_of_not_range h4)
    · exact outside_of_not_range h4
    · simp [sBits] at hV

theorem C2_small_signed_narrowest_witness :
    ∃ W : SignedType, small_signed (-40000) = some W ∧
      iMinVal W ≤ -40000 ∧ (-40000 : Int) ≤ iMaxVal W ∧
      ∀ V : SignedType, sBits V < sBits W →
        (-40000 : Int) < iMinVal V ∨ iMaxVal V < -40000 :=
  C2_small_signed_narrowest (-40000) (by decide) (by decide)

/-- C3: on every ladder rung, `checked_from` asserts (modelled: returns
`none`) for every host-native value outside the rung's range and never
returns a wrapped or truncated value; in particular `u8::checked_from(300)`
fails. -/
theorem C3_checked_from_fails_out_of_range :
    (∀ (W : UnsignedType) (v : Nat), v ≤ u128MAX → uMaxVal W < v →
      uChecked_from W v = none) ∧
    (∀ (S : SignedType) (v : Int), i128MIN ≤ v → v ≤ i128MAX →
      (v < iMinVal S ∨ iMaxVal S < v) → iChecked_from S v = none) := by
  constructor
  · intro W v hv hout
    cases W
    · exact if_neg (Nat.not_le.mpr hout)
    · exact if_neg (Nat.not_le.mpr hout)
    · exact if_neg (Nat.not_le.mpr hout)
    · exact if_neg (Nat.not_le.mpr hout)
    · exact absurd hv (Nat.not_le.mpr hout)
  · intro S v hlo hhi hout
    have hgen : ∀ lo hi : Int, (lo ≤ v → v ≤ hi → False) →
        ∀ o : Option Int, (if lo ≤ v ∧ v ≤ hi then o else none) = none := by
      intro lo hi hc o
      exact if_neg fun hand => hc hand.1 hand.2
    cases S
    · refine hgen i8MIN i8MAX (fun ha hb => ?_) _
      rcases hout with h | h
      · exact absurd ha (not_le.mpr h)
      · exact absurd hb (not_le.mpr h)
    · refine hgen i16MIN i16MAX (fun ha hb => ?_) _
      rcases hout with h | h
      · exact absurd ha (not_le.mpr h)
      · exact absurd hb (not_le.mpr h)
    · refine hgen i32MIN i32MAX (fun ha hb => ?_) _
      rcases hout with h | h
      · exact absurd ha (not_le.mpr h)
      · exact absurd hb (not_le.mpr h)
    · refine hgen i64MIN i64MAX (fun ha hb => ?_) _
      rcases hout with h | h
      · exact absurd ha (not_le.mpr h)
      · exact absurd hb (not_le.mpr h)
    · rcases hout with h | h
      · exact absurd hlo (not_le.mpr h)
      · exact absurd hhi (not_le.mpr h)

theorem C3_checked_from_fails_out_of_range_witness :
    uChecked_from UnsignedType.u8 300 = none ∧
    iChecked_from SignedType.i8 300 = none :=
  ⟨C3_checked_from_fails_out_of_range.1 UnsignedType.u8 300 (by decide) (by decide),
   C3_checked_from_fails_out_of_range.2 SignedType.i8 300 (by decide) (by decide)
     (by decide)⟩

/-- C4 (code slip at the `i128` rung): on every host width that supports the
rung, widening a representable value to the native width and narrowing back
through `checked_from` is the identity — proved for all unsigned rungs up to
and including `u128` and for the signed rungs whose `checked_from` body is
well formed (`i8`..`i64`).  The `i128` rung is excluded: its source result
expression `num as i28` (`signed.rs` line 148) names no Rust type, so the
claimed `i128` round trip has no compiling code to hold of. -/
theorem C4_roundtrip_widen_narrow :
    (∀ (w : PtrWidth) (W : UnsignedType) (v : Nat), uBits W ≤ ptrBits w →
      v ≤ uMaxVal W → uChecked_from W (usize_cast w v) = some v) ∧
    (∀ (w : PtrWidth) (S : SignedType) (v : Int), S ≠ SignedType.i128 →
      sBits S ≤ ptrBits w → iMinVal S ≤ v → v ≤ iMaxVal S →
      iChecked_from S (isize_cast w v) = some v) := by
  constructor
  · intro w W v hsup hv
    cases W <;> cases w <;>
      first
        | exact absurd hsup (by decide)
        | (simp only [uMaxVal] at hv
           simp only [uChecked_from, u8.checked_from, u16.checked_from,
             u32.checked_from, u64.checked_from, u128.checked_from,
             usize_cast, ptrBits]
           rw [Nat.mod_eq_of_lt (lt_of_le_of_lt hv (by decide)), if_pos hv,
             Nat.mod_eq_of_lt (lt_of_le_of_lt hv (by decide))])
  · intro w S v hne hsup h1 h2
    cases S <;> cases w <;>
      first
        | exact absurd rfl hne
        | exact absurd hsup (by decide)
        | (simp only [iMinVal] at h1
           simp only [iMaxVal] at h2
           simp only [iChecked_from, i8.checked_from, i16.checked_from,
             i32.checked_from, i64.checked_from, isize_cast, ptrBits]
           rw [wrapS_eq_self (by decide) (le_trans (by decide) h1)
               (lt_of_le_of_lt h2 (by decide)),
             if_pos ⟨h1, h2⟩,
             wrapS_eq_self (by decide) (le_trans (by decide) h1)
               (lt_of_le_of_lt h2 (by decide))])

theorem C4_roundtrip_widen_narrow_witness :
    uChecked_from UnsignedType.u16 (usize_cast PtrWidth.w64 500) = some 500 ∧
    iChecked_from SignedType.i8 (isize_cast PtrWidth.w64 (-100)) = some (-100) :=
  ⟨C4_roundtrip_widen_narrow.1 PtrWidth.w64 UnsignedType.u16 500 (by decide)
     (by decide),
   C4_roundtrip_widen_narrow.2 PtrWidth.w64 SignedType.i8 (-100) (by decide)
     (by decide) (by decide) (by decide)⟩

/-- C5: for every `usize` bound, the runtime label `SmallUnsignedLabel::new`
and the compile-time selection of `small_unsigned!` agree on width class, in
particular on the test set {0, 1, 255, 256, 65535, 65536, 4294967295,
4294967296}. -/
theorem C5_label_agrees_with_type (b : Nat) (hb : b ≤ u128MAX) :
    Option.map labelOfUnsigned (small_unsigned b) =
      some (SmallUnsignedLabel.new b) ∧
    ∀ v ∈ ([0, 1, 255, 256, 65535, 65536, 4294967295, 4294967296] : List Nat),
      Option.map labelOfUnsigned (small_unsigned v) =
        some (SmallUnsignedLabel.new v) := by
  refine ⟨?_, by decide⟩
  by_cases h1 : b ≤ u8MAX
  · rw [small_unsigned_u8 h1]
    unfold SmallUnsignedLabel.new
    rw [if_pos h1]
    rfl
  by_cases h2 : b ≤ u16MAX
  · rw [small_unsigned_u16 h1 h2]
    unfold SmallUnsignedLabel.new
    rw [if_neg h1, if_pos h2]
    rfl
  by_cases h3 : b ≤ u32MAX
  · rw [small_unsigned_u32 h2 h3]
    unfold SmallUnsignedLabel.new
    rw [if_neg h1, if_neg h2, if_pos h3]
    rfl
  by_cases h4 : b ≤ u64MAX
  · rw [small_unsigned_u64 h3 h4]
    unfold SmallUnsignedLabel.new
    rw [if_neg h1, if_neg h2, if_neg h3, if_pos h4]
    rfl
  · rw [small_unsigned_u128 h4 hb]
    unfold SmallUnsignedLabel.new
    rw [if_neg h1, if_neg h2, if_neg h3, if_neg h4]
    rfl

theorem C5_label_agrees_with_type_witness :
    Option.map labelOfUnsigned (small_unsigned 65536) =
      some (SmallUnsignedLabel.new 65536) ∧
    ∀ v ∈ ([0, 1, 255, 256, 65535, 65536, 4294967295, 4294967296] : List Nat),
      Option.map labelOfUnsigned (small_unsigned v) =
        some (SmallUnsignedLabel.new v) :=
  C5_label_agrees_with_type 65536 (by decide)

set_option maxRecDepth 8192 in
/-- C6: for every producible bound, the five fits booleans of each selection
macro (the `unsigned.rs` and `signed.rs` macros, and the `cfg`-gated `lib.rs`
macros on every host width) form a monotone vector whose fifth entry is
unconditionally `true`; consequently the all-false vector is impossible and
exactly one `ShrinkUnsigned` / `ShrinkSigned` impl resolves every monotone
vector with true fifth entry. -/
theorem C6_fits_vectors_monotone :
    (∀ m : Nat, m ≤ u128MAX →
      monoChain (fits_u8 m) (fits_u16 m) (fits_u32 m) (fits_u64 m)
        (fits_u128 m) ∧ fits_u128 m = true) ∧
    (∀ (w : PtrWidth) (m : Nat), m ≤ usizeMaxOn w →
      monoChain (lib_fits_u8 m) (lib_fits_u16 w m) (lib_fits_u32 w m)
        (lib_fits_u64 w m) (lib_fits_u128 w m) ∧ lib_fits_u128 w m = true) ∧
    (∀ v : Int, i128MIN ≤ v → v ≤ i128MAX →
      monoChain (fits_i8 v) (fits_i16 v) (fits_i32 v) (fits_i64 v)
        (fits_i128 v) ∧ fits_i128 v = true) ∧
    (∀ (w : PtrWidth) (v : Int), isizeMinOn w ≤ v → v ≤ isizeMaxOn w →
      monoChain (lib_fits_i8 v) (lib_fits_i16 w v) (lib_fits_i32 w v)
        (lib_fits_i64 w v) (lib_fits_i128 w v) ∧ lib_fits_i128 w v = true) ∧
    (∀ a b c d e : Bool, monoChain a b c d e → e = true →
      ¬(a = false ∧ b = false ∧ c = false ∧ d = false ∧ e = false) ∧
      (∃ W : UnsignedType, shrinkUnsigned a b c d e = some W ∧
        ∀ V : UnsignedType, shrinkUnsigned a b c d e = some V → V = W) ∧
      (∃ S : SignedType, shrinkSigned a b c d e = some S ∧
        ∀ T : SignedType, shrinkSigned a b c d e = some T → T = S)) := by
  refine ⟨?_, ?_, ?_, ?_, ?_⟩
  · intro m hm
    refine ⟨⟨?_, ?_, ?_, ?_⟩, decide_eq_true hm⟩ <;>
      simp only [fits_u8, fits_u16, fits_u32, fits_u64, fits_u128,
        decide_eq_true_eq] <;>
      exact fun h => le_trans h (by decide)
  · intro w m hm
    cases w <;>
      refine ⟨⟨?_, ?_, ?_, ?_⟩, ?_⟩ <;>
        simp only [lib_fits_u8, lib_fits_u16, lib_fits_u32, lib_fits_u64,
          lib_fits_u128, decide_eq_true_eq] <;>
        first
          | exact fun h => le_trans h (by decide)
          | exact le_trans hm (by decide)
          | exact fun _ => trivial
  · intro v hlo hhi
    refine ⟨⟨?_, ?_, ?_, ?_⟩, decide_eq_true ⟨hlo, hhi⟩⟩ <;>
      simp only [fits_i8, fits_i16, fits_i32, fits_i64, fits_i128,
        decide_eq_true_eq] <;>
      exact fun h => ⟨le_trans (by decide) h.1, le_trans h.2 (by decide)⟩
  · intro w v hlo hhi
    cases w <;>
      refine ⟨⟨?_, ?_, ?_, ?_⟩, ?_⟩ <;>
        simp only [lib_fits_i8, lib_fits_i16, lib_fits_i32, lib_fits_i64,
          lib_fits_i128, decide_eq_true_eq] <;>
        first
          | exact fun h => ⟨le_trans (by decide) h.1, le_trans h.2 (by decide)⟩
          | exact ⟨le_trans (by decide) hlo, le_trans hhi (by decide)⟩
          | exact fun _ => trivial
  · intro a b c d e hmono he
    obtain ⟨h1, h2, h3, h4⟩ := hmono
    subst he
    cases a <;> cases b <;> cases c <;> cases d <;>
      first
        | exact Bool.noConfusion (h1 rfl)
        | exact Bool.noConfusion (h2 rfl)
        | exact Bool.noConfusion (h3 rfl)
        | exact Bool.noConfusion (h4 rfl)
        | exact ⟨fun hall => Bool.noConfusion hall.2.2.2.2,
            ⟨UnsignedType.u8, rfl, fun V hV => (Option.some.inj hV).symm⟩,
            ⟨SignedType.i8, rfl, fun T hT => (Option.some.inj hT).symm⟩⟩
        | exact ⟨fun hall => Bool.noConfusion hall.2.2.2.2,
            ⟨UnsignedType.u16, rfl, fun V hV => (Option.some.inj hV).symm⟩,
            ⟨SignedType.i16, rfl, fun T hT => (Option.some.inj hT).symm⟩⟩
        | exact ⟨fun hall => Bool.noConfusion hall.2.2.2.2,
            ⟨UnsignedType.u32, rfl, fun V hV => (Option.some.inj hV).symm⟩,
            ⟨SignedType.i32, rfl, fun T hT => (Option.some.inj hT).symm⟩⟩
        | exact ⟨fun hall => Bool.noConfusion hall.2.2.2.2,
            ⟨UnsignedType.u64, rfl, fun V hV => (Option.some.inj hV).symm⟩,
            ⟨SignedType.i64, rfl, fun T hT => (Option.some.inj hT).symm⟩⟩
        | exact ⟨fun hall => Bool.noConfusion hall.2.2.2.2,
            ⟨UnsignedType.u128, rfl, fun V hV => (Option.some.inj hV).symm⟩,
            ⟨SignedType.i128, rfl, fun T hT => (Option.some.inj hT).symm⟩⟩

theorem C6_fits_vectors_monotone_witness :
    (monoChain (fits_u8 500) (fits_u16 500) (fits_u32 500) (fits_u64 500)
       (fits_u128 500) ∧ fits_u128 500 = true) ∧
    (monoChain (lib_fits_u8 500) (lib_fits_u16 PtrWidth.w64 500)
       (lib_fits_u32 PtrWidth.w64 500) (lib_fits_u64 PtrWidth.w64 500)
       (lib_fits_u128 PtrWidth.w64 500) ∧
      lib_fits_u128 PtrWidth.w64 500 = true) ∧
    (monoChain (fits_i8 (-500)) (fits_i16 (-500)) (fits_i32 (-500))
       (fits_i64 (-500)) (fits_i128 (-500)) ∧ fits_i128 (-500) = true) ∧
    (monoChain (lib_fits_i8 (-500)) (lib_fits_i16 PtrWidth.w64 (-500))
       (lib_fits_i32 PtrWidth.w64 (-500)) (lib_fits_i64 PtrWidth.w64 (-500))
       (lib_fits_i128 PtrWidth.w64 (-500)) ∧
      lib_fits_i128 PtrWidth.w64 (-500) = true) ∧
    (¬(false = false ∧ true = false ∧ true = false ∧ true = false ∧
        true = false) ∧
      (∃ W : UnsignedType, shrinkUnsigned false true true true true = some W ∧
        ∀ V : UnsignedType, shrinkUnsigned false true true true true = some V →
          V = W) ∧
      (∃ S : SignedType, shrinkSigned false true true true true = some S ∧
        ∀ T : SignedType, shrinkSigned false true true true true = some T →
          T = S)) :=
  ⟨C6_fits_vectors_monotone.1 500 (by decide),
   C6_fits_vectors_monotone.2.1 PtrWidth.w64 500 (by decide),
   C6_fits_vectors_monotone.2.2.1 (-500) (by decide) (by decide),
   C6_fits_vectors_monotone.2.2.2.1 PtrWidth.w64 (-500) (by decide) (by decide),
   C6_fits_vectors_monotone.2.2.2.2 false true true true true (by decide) rfl⟩

/-- C7 counterexample: sign symmetry of `small_signed!` fails at the
two's-complement boundary `b = 128`, where `small_signed!(128)` selects `i16`
but `small_signed!(-128)` selects `i8`. -/
theorem C7_sign_symmetry_counterexample :
    small_signed 128 = some SignedType.i16 ∧
    small_signed (-128) = some SignedType.i8 ∧
    ¬small_signed 128 = small_signed (-128) := by decide

/-- C7 (amended): `small_signed!(b)` and `small_signed!(-b)` select the same
type for every bound `b` such that both `b` and `-b` are in the `i128` range
and the magnitude of `b` is not one of the rung boundary powers
`2 ^ 7`, `2 ^ 15`, `2 ^ 31`, `2 ^ 63` (at those boundaries, witnessed by the
counterexample, the negative value still fits the narrower rung while the
positive one does not); the concrete pairs 100 / -100 (`i8`) and 500 / -500
(`i16`) agree as claimed. -/
theorem C7_sign_symmetry (b : Int)
    (hlo : i128MIN ≤ b) (hhi : b ≤ i128MAX)
    (hlo2 : i128MIN ≤ -b) (hhi2 : -b ≤ i128MAX)
    (h8 : b ≠ 128) (h8n : b ≠ -128)
    (h16 : b ≠ 32768) (h16n : b ≠ -32768)
    (h32 : b ≠ 2147483648) (h32n : b ≠ -2147483648)
    (h64 : b ≠ 9223372036854775808) (h64n : b ≠ -9223372036854775808) :
    small_signed b = small_signed (-b) ∧
    small_signed 100 = some SignedType.i8 ∧
    small_signed (-100) = some SignedType.i8 ∧
    small_signed 500 = some SignedType.i16 ∧
    small_signed (-500) = some SignedType.i16 := by
  refine ⟨?_, by decide, by decide, by decide, by decide⟩
  by_cases c1 : i8MIN ≤ b ∧ b ≤ i8MAX
  · have c1n : i8MIN ≤ -b ∧ -b ≤ i8MAX := by
      simp only [i8MIN, i8MAX] at c1 ⊢
      omega
    rw [small_signed_i8 c1.1 c1.2, small_signed_i8 c1n.1 c1n.2]
  by_cases c2 : i16MIN ≤ b ∧ b ≤ i16MAX
  · have c2n : i16MIN ≤ -b ∧ -b ≤ i16MAX := by
      simp only [i16MIN, i16MAX] at c2 ⊢
      omega
    have c1n : ¬(i8MIN ≤ -b ∧ -b ≤ i8MAX) := by
      simp only [i8MIN, i8MAX] at c1 ⊢
      omega
    rw [small_signed_i16 c1 c2.1 c2.2, small_signed_i16 c1n c2n.1 c2n.2]
  by_cases c3 : i32MIN ≤ b ∧ b ≤ i32MAX
  · have c3n : i32MIN ≤ -b ∧ -b ≤ i32MAX := by
      simp only [i32MIN, i32MAX] at c3 ⊢
      omega
    have c2n : ¬(i16MIN ≤ -b ∧ -b ≤ i16MAX) := by
      simp only [i16MIN, i16MAX] at c2 ⊢
      omega
    rw [small_signed_i32 c2 c3.1 c3.2, small_signed_i32 c2n c3n.1 c3n.2]
  by_cases c4 : i64MIN ≤ b ∧ b ≤ i64MAX
  · have c4n : i64MIN ≤ -b ∧ -b ≤ i64MAX := by
      simp only [i64MIN, i64MAX] at c4 ⊢
      omega
    have c3n : ¬(i32MIN ≤ -b ∧ -b ≤ i32MAX) := by
      simp only [i32MIN, i32MAX] at c3 ⊢
      omega
    rw [small_signed_i64 c3 c4.1 c4.2, small_signed_i64 c3n c4n.1 c4n.2]
  · have c4n : ¬(i64MIN ≤ -b ∧ -b ≤ i64MAX) := by
      simp only [i64MIN, i64MAX] at c4 ⊢
      omega
    rw [small_signed_i128 c4 hlo hhi, small_signed_i128 c4n hlo2 hhi2]

theorem C7_sign_symmetry_witness :
    (small_signed 500 = small_signed (-500) ∧
      small_signed 100 = some SignedType.i8 ∧
      small_signed (-100) = some SignedType.i8 ∧
      small_signed 500 = some SignedType.i16 ∧
      small_signed (-500) = some SignedType.i16) ∧
    small_signed (-40000) = small_signed 40000 :=
  ⟨C7_sign_symmetry 500 (by decide) (by decide) (by decide) (by decide)
     (by decide) (by decide) (by decide) (by decide) (by decide) (by decide)
     (by decide) (by decide),
   (C7_sign_symmetry (-40000) (by decide) (by decide) (by decide) (by decide)
     (by decide) (by decide) (by decide) (by decide) (by decide) (by decide)
     (by decide) (by decide)).1⟩

/-- C8: the runtime label constructors never produce the host-native
variants: `SmallUnsignedLabel::new` never returns `USIZE` and
`SmallSignedLabel::new` never returns `ISIZE`, for any input. -/
theorem C8_label_never_native :
    (∀ num : Nat, SmallUnsignedLabel.new num ≠ SmallUnsignedLabel.USIZE) ∧
    (∀ num : Int, SmallSignedLabel.new num ≠ SmallSignedLabel.ISIZE) := by
  constructor
  · intro num
    unfold SmallUnsignedLabel.new
    repeat' split
    all_goals simp
  · intro num
    unfold SmallSignedLabel.new
    repeat' split
    all_goals simp

theorem C8_label_never_native_witness :
    SmallUnsignedLabel.new 5 ≠ SmallUnsignedLabel.USIZE ∧
    SmallSignedLabel.new (-5) ≠ SmallSignedLabel.ISIZE :=
  ⟨C8_label_never_native.1 5, C8_label_never_native.2 (-5)⟩

set_option maxRecDepth 8192 in
/-- C9: on every host width that supports the rung, the upcast to the
host-native width (`usize()` / `isize()`, the shared `*self as usize` /
`*self as isize` bodies) is total and returns exactly the value for every
representable value of the rung. -/
theorem C9_upcast_total_lossless :
    (∀ (w : PtrWidth) (W : UnsignedType) (v : Nat), uBits W ≤ ptrBits w →
      v ≤ uMaxVal W → usize_cast w v = v) ∧
    (∀ (w : PtrWidth) (S : SignedType) (v : Int), sBits S ≤ ptrBits w →
      iMinVal S ≤ v → v ≤ iMaxVal S → isize_cast w v = v) := by
  constructor
  · intro w W v hsup hv
    cases W <;> cases w <;>
      first
        | exact absurd hsup (by decide)
        | (simp only [uMaxVal] at hv
           simp only [usize_cast, ptrBits]
           exact Nat.mod_eq_of_lt (lt_of_le_of_lt hv (by decide)))
  · intro w S v hsup h1 h2
    cases S <;> cases w <;>
      first
        | exact absurd hsup (by decide)
        | (simp only [iMinVal] at h1
           simp only [iMaxVal] at h2
           simp only [isize_cast, ptrBits]
           exact wrapS_eq_self (by decide) (le_trans (by decide) h1)
             (lt_of_le_of_lt h2 (by decide)))

theorem C9_upcast_total_lossless_witness :
    usize_cast PtrWidth.w64 500 = 500 ∧
    isize_cast PtrWidth.w64 (-500) = -500 :=
  ⟨C9_upcast_total_lossless.1 PtrWidth.w64 UnsignedType.u16 500 (by decide)
     (by decide),
   C9_upcast_total_lossless.2 PtrWidth.w64 SignedType.i16 (-500) (by decide)
     (by decide) (by decide)⟩

/-- C10: at the host-native rung the checked downcast is total and the
identity: `usize::checked_from` and `isize::checked_from` return their input
with no range check and no failure path — even for inputs such as 300 that
the narrow rungs reject. -/
theorem C10_native_checked_from_identity :
    (∀ num : Nat, usize.checked_from num = num) ∧
    (∀ num : Int, isize.checked_from num = num) ∧
    usize.checked_from 300 = 300 ∧ u8.checked_from 300 = none ∧
    isize.checked_from (-300) = -300 ∧ i8.checked_from (-300) = none :=
  ⟨fun _ => rfl, fun _ => rfl, rfl, by decide, rfl, by decide⟩
